import Mathlib

/-!
Shallow embedding of the analytics core of the Groundwater-DWLR-Dashboard
repository (src/processing/trend_engine.py, src/processing/seasonal_engine.py,
src/processing_engine.py, src/models/reading.py, src/models/metrics.py),
together with theorems settling the specification claims about it.

Modelling conventions:
* Python `datetime` values are modelled at day resolution by `PyDateTime`:
  `days` is the day index on the timeline (datetime comparison and
  `timedelta(days=k)` arithmetic act on it) and `month` is the value of the
  datetime's `.month` attribute.  The engines only compare timestamps, shift
  them by whole days, and read `.month` of the (unshifted) reference date, so
  this is faithful for the day-resolution data the engines consume.
* Python `float` values are modelled by `ℚ`; `water_level_m` is `Option ℚ`
  because the engines explicitly filter out `None` levels.
* `datetime.now()` is modelled by an explicit `now` argument threaded into the
  function that calls it (`_create_empty_metrics`), so dependence on the wall
  clock becomes dependence on that argument.
* Python's `sorted` / `list.sort` (Timsort) are stable; they are modelled by
  `List.insertionSort` with the non-strict key order, which inserts each
  element before the first strictly greater key and therefore preserves the
  original relative order of equal keys, exactly like Timsort.
-/

/-- Day-resolution model of a Python `datetime`: `days` is the instant (day
index) used for ordering and day arithmetic, `month` the `.month` attribute. -/
structure PyDateTime where
  days : ℤ
  month : ℕ
  deriving DecidableEq, Repr, Inhabited

/-- models/reading.py: one groundwater level reading from a DWLR station. -/
structure Reading where
  station_id : String
  timestamp : PyDateTime
  water_level_m : Option ℚ
  quality_flag : Option String := none
  source : Option String := none
  deriving DecidableEq, Repr, Inhabited

/-- models/metrics.py: TrendIndicator enum. -/
inductive TrendIndicator where
  | RECHARGING
  | STABLE
  | DEPLETING
  | INSUFFICIENT_DATA
  deriving DecidableEq, Repr

/-- models/metrics.py: TrendStrength enum. -/
inductive TrendStrength where
  | LOW
  | MEDIUM
  | STRONG
  deriving DecidableEq, Repr

/-- models/metrics.py: RiskLevel enum. -/
inductive RiskLevel where
  | LOW
  | MODERATE
  | HIGH
  | CRITICAL
  deriving DecidableEq, Repr

/-- models/metrics.py: detailed trend analysis metrics from linear regression. -/
structure TrendMetrics where
  status : TrendIndicator
  slope : ℚ
  strength : TrendStrength
  magnitude : ℚ
  window_days : ℤ
  data_points_used : ℕ
  deriving DecidableEq, Repr

/-- models/metrics.py: seasonal deviation metrics from rolling-window analysis. -/
structure SeasonalMetrics where
  actual_change : ℚ
  historical_baseline : ℚ
  deviation : ℚ
  season_label : String
  years_used : ℕ
  deriving DecidableEq, Repr

/-- models/metrics.py: calculated metrics for a station (the aggregate the
processing engine returns). -/
structure Metrics where
  station_id : String
  calculation_date : PyDateTime
  trend_indicator : TrendIndicator
  trend_magnitude : Option ℚ := none
  trend_period_days : Option ℤ := none
  trend_metrics : Option TrendMetrics := none
  seasonal_deviation : Option ℚ := none
  seasonal_baseline : Option ℚ := none
  seasonal_metrics : Option SeasonalMetrics := none
  risk_index : Option ℚ := none
  risk_level : Option RiskLevel := none
  data_points_used : Option ℕ := none
  calculation_notes : Option String := none
  deriving DecidableEq, Repr

/-- config.py processing settings consumed by ProcessingEngine (defaults of the
environment-variable lookups). -/
structure Config where
  trend_window_days : ℤ := 90
  seasonal_comparison_years : ℕ := 2
  risk_trend_weight : ℚ := 6/10
  risk_seasonal_weight : ℚ := 4/10
  deriving DecidableEq, Repr

/-- Key order used by both engines when sorting readings: Python compares the
`timestamp` datetimes, i.e. the day indices at day resolution. -/
def byTime (a b : Reading) : Prop :=
  a.timestamp.days ≤ b.timestamp.days

instance : DecidableRel byTime := fun a b => Int.decLe a.timestamp.days b.timestamp.days

namespace TrendEngine

/-- trend_engine.py: trend classification threshold (m/day), unused by the code. -/
def RECHARGING_THRESHOLD : ℚ := -5/10000

/-- trend_engine.py: trend classification threshold (m/day), unused by the code. -/
def DEPLETING_THRESHOLD : ℚ := 5/10000

/-- trend_engine.py: strength band threshold (m/day). -/
def LOW_STRENGTH_THRESHOLD : ℚ := 7/10000

/-- trend_engine.py: strength band threshold (m/day). -/
def MEDIUM_STRENGTH_THRESHOLD : ℚ := 15/10000

/-- Python `max(r.timestamp for r in readings)` (day index of the maximum;
`max` of datetimes is determined by the instant).  The `[]` case is never
reached by the engine, which returns early on an empty list. -/
def maxTimestampDays : List Reading → ℤ
  | [] => 0
  | r :: rest => rest.foldl (fun acc x => max acc x.timestamp.days) r.timestamp.days

/-- trend_engine.py lines 54-60: filter to readings within `window_days` of the
latest reading and with a non-null water level. -/
def filteredReadings (readings : List Reading) (window_days : ℤ) : List Reading :=
  readings.filter (fun r =>
    decide (maxTimestampDays readings - window_days ≤ r.timestamp.days)
      && r.water_level_m.isSome)

/-- Slope coefficient of `np.polyfit(x_values, y_values, deg=1)`: the ordinary
least-squares slope `(n·Σxy − Σx·Σy) / (n·Σx² − (Σx)²)`.  When the denominator
vanishes (all x equal, which given `x₀ = 0` means all x are 0) numpy's
minimum-norm least-squares solution has slope coefficient 0, which agrees with
`ℚ` division by zero being 0. -/
def polyfitSlope (x_values y_values : List ℚ) : ℚ :=
  let n : ℚ := x_values.length
  let sx := x_values.sum
  let sy := y_values.sum
  let sxy := ((x_values.zip y_values).map (fun p => p.1 * p.2)).sum
  let sxx := (x_values.map (fun x => x * x)).sum
  (n * sxy - sx * sy) / (n * sxx - sx * sx)

/-- trend_engine.py line 68: the filtered readings after the stable in-place
chronological sort (which acts on the fresh filtered list). -/
def sortedFiltered (readings : List Reading) (window_days : ℤ) : List Reading :=
  List.insertionSort byTime (filteredReadings readings window_days)

/-- trend_engine.py line 72: the first survivor's timestamp (never taken on an
empty list by the engine, which returns early below 2 survivors). -/
def firstTs (readings : List Reading) (window_days : ℤ) : ℤ :=
  match sortedFiltered readings window_days with
  | [] => 0
  | r :: _ => r.timestamp.days

/-- trend_engine.py lines 73-76: x values, whole-day deltas from the first
survivor's timestamp (`(r.timestamp - first_timestamp).days`). -/
def xValues (readings : List Reading) (window_days : ℤ) : List ℚ :=
  (sortedFiltered readings window_days).map
    (fun r => ((r.timestamp.days - firstTs readings window_days : ℤ) : ℚ))

/-- trend_engine.py lines 77-80: y values, the water levels of the survivors. -/
def yValues (readings : List Reading) (window_days : ℤ) : List ℚ :=
  (sortedFiltered readings window_days).map (fun r => r.water_level_m.getD 0)

/-- trend_engine.py lines 82-92: the slope, 0.0 exactly when all y values are
numerically equal (`np.all(y_values == y_values[0])`), otherwise the
least-squares slope of the degree-1 fit. -/
def trendSlope (readings : List Reading) (window_days : ℤ) : ℚ :=
  if (yValues readings window_days).all
      (fun y : ℚ => decide (y = (yValues readings window_days).headD 0)) then 0
  else polyfitSlope (xValues readings window_days) (yValues readings window_days)

/-- trend_engine.py lines 94-124: classification of status (by the sign of the
slope), strength (bands on `|slope|`), magnitude (`slope * window_days`), and
assembly of the returned TrendMetrics. -/
def trendFromSlope (slope : ℚ) (window_days : ℤ) (points_used : ℕ) : TrendMetrics :=
  { status :=
      if slope < 0 then TrendIndicator.RECHARGING
      else if 0 < slope then TrendIndicator.DEPLETING
      else TrendIndicator.STABLE
    slope := slope
    strength :=
      if |slope| < LOW_STRENGTH_THRESHOLD then TrendStrength.LOW
      else if |slope| < MEDIUM_STRENGTH_THRESHOLD then TrendStrength.MEDIUM
      else TrendStrength.STRONG
    magnitude := slope * window_days
    window_days := window_days
    data_points_used := points_used }

/-- trend_engine.py TrendEngine.calculate_trend: returns `none` on an empty
series or fewer than 2 usable in-window points, otherwise the TrendMetrics
built from the fitted slope.  Total by construction (never raises). -/
def calculate_trend (readings : List Reading) (window_days : ℤ) : Option TrendMetrics :=
  match readings with
  | [] => none
  | _ :: _ =>
    if (filteredReadings readings window_days).length < 2 then none
    else
      some (trendFromSlope (trendSlope readings window_days) window_days
        (filteredReadings readings window_days).length)

end TrendEngine

namespace SeasonalEngine

/-- seasonal_engine.py lines 41-42: `sorted(readings, key=lambda r: r.timestamp)`
(a fresh, stably sorted list). -/
def sortedByTime (readings : List Reading) : List Reading :=
  List.insertionSort byTime readings

/-- seasonal_engine.py lines 45-47: the anchor date, `reference_date` when
supplied, else the last (latest) reading's timestamp. -/
def refDate (readings : List Reading) (reference_date : Option PyDateTime) : PyDateTime :=
  reference_date.getD ((sortedByTime readings).getLastD default).timestamp

/-- seasonal_engine.py window comprehension: readings of the sorted series with
timestamp in `[lo, hi]` and a non-null water level. -/
def windowFilter (sorted_readings : List Reading) (lo hi : ℤ) : List Reading :=
  sorted_readings.filter (fun r =>
    decide (lo ≤ r.timestamp.days ∧ r.timestamp.days ≤ hi) && r.water_level_m.isSome)

/-- seasonal_engine.py lines 51-55: the current rolling window
`[reference_date - window_days, reference_date]`. -/
def actualWindow (readings : List Reading) (window_days : ℤ)
    (reference_date : Option PyDateTime) : List Reading :=
  windowFilter (sortedByTime readings)
    ((refDate readings reference_date).days - window_days)
    (refDate readings reference_date).days

/-- seasonal_engine.py lines 68-76: the historical window for `year`, the
current window shifted `year * 365` days into the past. -/
def historicalWindow (readings : List Reading) (window_days : ℤ)
    (reference_date : Option PyDateTime) (year : ℕ) : List Reading :=
  windowFilter (sortedByTime readings)
    ((refDate readings reference_date).days - window_days - year * 365)
    ((refDate readings reference_date).days - year * 365)

/-- seasonal_engine.py lines 66-80: net changes (last minus first) of the
historical windows that contain at least 2 usable readings, years `1..years`
in order, the others skipped silently. -/
def historicalChanges (readings : List Reading) (window_days : ℤ)
    (reference_date : Option PyDateTime) (years : ℕ) : List ℚ :=
  (List.range years).filterMap (fun k =>
    if 2 ≤ (historicalWindow readings window_days reference_date (k + 1)).length then
      some (((historicalWindow readings window_days reference_date (k + 1)).getLastD
          default).water_level_m.getD 0
        - ((historicalWindow readings window_days reference_date (k + 1)).headD
          default).water_level_m.getD 0)
    else none)

/-- seasonal_engine.py SeasonalEngine.get_season_label as a function of the
month attribute (the code's first step is `month = date.month`). -/
def seasonLabelOfMonth (month : ℕ) : String :=
  if month = 3 ∨ month = 4 ∨ month = 5 then "Summer / Pre-Monsoon"
  else if month = 6 ∨ month = 7 ∨ month = 8 ∨ month = 9 then "Monsoon"
  else if month = 10 ∨ month = 11 then "Post-Monsoon"
  else "Winter"

/-- seasonal_engine.py SeasonalEngine.get_season_label. -/
def get_season_label (date : PyDateTime) : String :=
  seasonLabelOfMonth date.month

/-- seasonal_engine.py line 63: the current window's net change, last minus
first usable in-window reading. -/
def actualChange (readings : List Reading) (window_days : ℤ)
    (reference_date : Option PyDateTime) : ℚ :=
  ((actualWindow readings window_days reference_date).getLastD default).water_level_m.getD 0
    - ((actualWindow readings window_days reference_date).headD default).water_level_m.getD 0

/-- seasonal_engine.py lines 86-99: the SeasonalMetrics assembled in the
success case (baseline = mean of the historical changes, deviation = actual
change minus baseline, label from the reference date). -/
def seasonalResult (readings : List Reading) (window_days : ℤ) (years : ℕ)
    (reference_date : Option PyDateTime) : SeasonalMetrics :=
  { actual_change := actualChange readings window_days reference_date
    historical_baseline := (historicalChanges readings window_days reference_date years).sum
      / (historicalChanges readings window_days reference_date years).length
    deviation := actualChange readings window_days reference_date
      - (historicalChanges readings window_days reference_date years).sum
        / (historicalChanges readings window_days reference_date years).length
    season_label := get_season_label (refDate readings reference_date)
    years_used := (historicalChanges readings window_days reference_date years).length }

/-- seasonal_engine.py SeasonalEngine.calculate_seasonal_deviation: `none` on an
empty series, a current window with fewer than 2 usable readings, or no usable
historical window; otherwise the SeasonalMetrics with actual change, baseline
(mean of historical changes), deviation and season label.  Total by
construction (never raises). -/
def calculate_seasonal_deviation (readings : List Reading) (window_days : ℤ)
    (years : ℕ) (reference_date : Option PyDateTime) : Option SeasonalMetrics :=
  match readings with
  | [] => none
  | _ :: _ =>
    if (actualWindow readings window_days reference_date).length < 2 then none
    else if historicalChanges readings window_days reference_date years = [] then none
    else some (seasonalResult readings window_days years reference_date)

end SeasonalEngine

namespace ProcessingEngine

/-- processing_engine.py `_readings_to_dataframe`: the DataFrame is modelled as
its list of `(timestamp, water_level_m)` rows sorted by timestamp; the stub
that consumes it only reads its length. -/
def readings_to_dataframe (readings : List Reading) : List (PyDateTime × Option ℚ) :=
  List.insertionSort (fun a b => a.1.days ≤ b.1.days)
    (readings.map (fun r => (r.timestamp, r.water_level_m)))

/-- processing_engine.py `_calculate_seasonal_deviation`: a stub that returns
`(None, None)` in both of its branches. -/
def calculate_seasonal_deviation_stub (df : List (PyDateTime × Option ℚ)) :
    Option ℚ × Option ℚ :=
  if df.length < 30 then (none, none) else (none, none)

/-- processing_engine.py `_calculate_risk_index`: a stub that returns
`(None, None)` in both of its branches. -/
def calculate_risk_index (trend_indicator : TrendIndicator)
    (trend_magnitude : Option ℚ) (seasonal_deviation : Option ℚ) :
    Option ℚ × Option RiskLevel :=
  if trend_indicator = TrendIndicator.INSUFFICIENT_DATA then (none, none)
  else (none, none)

/-- processing_engine.py `_create_empty_metrics`.  `now` models the value of
`datetime.now()` at the moment of the call: the Python code evaluates
`calculation_date or datetime.now()`, and a datetime is always truthy. -/
def create_empty_metrics (now : PyDateTime) (readings : List Reading)
    (calculation_date : Option PyDateTime) : Metrics :=
  { station_id := match readings with
      | [] => "unknown"
      | r :: _ => r.station_id
    calculation_date := calculation_date.getD now
    trend_indicator := TrendIndicator.INSUFFICIENT_DATA
    data_points_used := some 0
    calculation_notes := some "Insufficient data for calculation" }

/-- Python `max(r.timestamp for r in readings)` on a nonempty list (ties keep
the earlier element, which at day resolution is an equal datetime). -/
def maxTimestamp (r0 : Reading) (rest : List Reading) : PyDateTime :=
  rest.foldl (fun acc r => if acc.days < r.timestamp.days then r.timestamp else acc)
    r0.timestamp

/-- processing_engine.py ProcessingEngine.calculate_metrics, with the engine's
configuration passed explicitly and `now` modelling the wall clock (consulted
only through `_create_empty_metrics`). -/
def calculate_metrics (cfg : Config) (now : PyDateTime) (readings : List Reading)
    (calculation_date : Option PyDateTime) : Metrics :=
  match readings with
  | [] => create_empty_metrics now readings calculation_date
  | r0 :: rest =>
    let calc_date := calculation_date.getD (maxTimestamp r0 rest)
    let df := readings_to_dataframe readings
    let trend_metrics := TrendEngine.calculate_trend readings cfg.trend_window_days
    let ti_tm : TrendIndicator × Option ℚ := match trend_metrics with
      | some tm => (tm.status, some tm.magnitude)
      | none => (TrendIndicator.INSUFFICIENT_DATA, none)
    let sd_sb := calculate_seasonal_deviation_stub df
    let ri_rl := calculate_risk_index ti_tm.1 ti_tm.2 sd_sb.1
    { station_id := r0.station_id
      calculation_date := calc_date
      trend_indicator := ti_tm.1
      trend_magnitude := ti_tm.2
      trend_period_days := some cfg.trend_window_days
      trend_metrics := trend_metrics
      seasonal_deviation := sd_sb.1
      seasonal_baseline := sd_sb.2
      risk_index := ri_rl.1
      risk_level := ri_rl.2
      data_points_used := some readings.length }

/-- The numeric outputs named by the determinism invariant: trend slope,
trend magnitude, seasonal deviation, seasonal baseline, risk index. -/
def numericOutputs (m : Metrics) :
    Option ℚ × Option ℚ × Option ℚ × Option ℚ × Option ℚ :=
  (m.trend_metrics.map TrendMetrics.slope, m.trend_magnitude,
    m.seasonal_deviation, m.seasonal_baseline, m.risk_index)

end ProcessingEngine

/-!
Heap model of the engine calls, for the frame property (no engine mutates its
inputs).  A Python list of Reading objects is a list of references plus a store
mapping each reference to the object's current field values.  The engine
functions are re-traced over this model, threading the caller's list and the
store and returning them as they stand at return time, so that any in-place
list operation or field assignment would show up in the returned state.  The
only in-place operation in the source, `filtered_readings.sort()` in
trend_engine.py line 68, acts on the fresh list built by the filter
comprehension on lines 56-59, never on the caller's list.
-/

namespace PyState

/-- The heap: reference (address) to current Reading field values. -/
def Store : Type := ℕ → Reading

/-- The sort key order on references: Python's `key=lambda r: r.timestamp`
reads the dereferenced objects. -/
def byTimeIx (store : Store) (i j : ℕ) : Prop :=
  byTime (store i) (store j)

instance (store : Store) : DecidableRel (byTimeIx store) :=
  fun i j => Int.decLe (store i).timestamp.days (store j).timestamp.days

/-- trend_engine.py line 53 over the heap model. -/
def maxTimestampDaysIx (store : Store) : List ℕ → ℤ
  | [] => 0
  | i :: rest =>
    rest.foldl (fun acc j => max acc (store j).timestamp.days) (store i).timestamp.days

/-- trend_engine.py lines 54-60 over the heap model: a fresh list of the
surviving references. -/
def filteredIx (store : Store) (readings : List ℕ) (window_days : ℤ) : List ℕ :=
  readings.filter (fun i =>
    decide (maxTimestampDaysIx store readings - window_days ≤ (store i).timestamp.days)
      && (store i).water_level_m.isSome)

/-- trend_engine.py line 68 over the heap model: the in-place sort permutes the
fresh filtered list of references. -/
def sortedFilteredIx (store : Store) (readings : List ℕ) (window_days : ℤ) : List ℕ :=
  List.insertionSort (byTimeIx store) (filteredIx store readings window_days)

/-- trend_engine.py line 72 over the heap model. -/
def firstTsIx (store : Store) (readings : List ℕ) (window_days : ℤ) : ℤ :=
  match sortedFilteredIx store readings window_days with
  | [] => 0
  | i :: _ => (store i).timestamp.days

/-- trend_engine.py lines 73-76 over the heap model. -/
def xValuesIx (store : Store) (readings : List ℕ) (window_days : ℤ) : List ℚ :=
  (sortedFilteredIx store readings window_days).map
    (fun i => (((store i).timestamp.days - firstTsIx store readings window_days : ℤ) : ℚ))

/-- trend_engine.py lines 77-80 over the heap model. -/
def yValuesIx (store : Store) (readings : List ℕ) (window_days : ℤ) : List ℚ :=
  (sortedFilteredIx store readings window_days).map
    (fun i => (store i).water_level_m.getD 0)

/-- trend_engine.py lines 82-92 over the heap model. -/
def trendSlopeIx (store : Store) (readings : List ℕ) (window_days : ℤ) : ℚ :=
  if (yValuesIx store readings window_days).all
      (fun y : ℚ => decide (y = (yValuesIx store readings window_days).headD 0)) then 0
  else TrendEngine.polyfitSlope (xValuesIx store readings window_days)
    (yValuesIx store readings window_days)

/-- trend_engine.py TrendEngine.calculate_trend over the heap model, returning
the store and the caller's reference list as they stand at return. -/
def calculate_trend_st (store : Store) (readings : List ℕ) (window_days : ℤ) :
    Store × List ℕ × Option TrendMetrics :=
  match readings with
  | [] => (store, readings, none)
  | _ :: _ =>
    if (filteredIx store readings window_days).length < 2 then (store, readings, none)
    else
      (store, readings,
        some (TrendEngine.trendFromSlope (trendSlopeIx store readings window_days)
          window_days (filteredIx store readings window_days).length))

/-- seasonal_engine.py lines 41-42 over the heap model: `sorted` builds a fresh
list of references. -/
def sortedIx (store : Store) (readings : List ℕ) : List ℕ :=
  List.insertionSort (byTimeIx store) readings

/-- seasonal_engine.py lines 45-47 over the heap model. -/
def refDateIx (store : Store) (readings : List ℕ)
    (reference_date : Option PyDateTime) : PyDateTime :=
  reference_date.getD (store ((sortedIx store readings).getLastD 0)).timestamp

/-- seasonal_engine.py window comprehensions over the heap model. -/
def windowFilterIx (store : Store) (sorted_ixs : List ℕ) (lo hi : ℤ) : List ℕ :=
  sorted_ixs.filter (fun i =>
    decide (lo ≤ (store i).timestamp.days ∧ (store i).timestamp.days ≤ hi)
      && (store i).water_level_m.isSome)

/-- seasonal_engine.py lines 51-55 over the heap model. -/
def actualWindowIx (store : Store) (readings : List ℕ) (window_days : ℤ)
    (reference_date : Option PyDateTime) : List ℕ :=
  windowFilterIx store (sortedIx store readings)
    ((refDateIx store readings reference_date).days - window_days)
    (refDateIx store readings reference_date).days

/-- seasonal_engine.py lines 68-76 over the heap model. -/
def historicalWindowIx (store : Store) (readings : List ℕ) (window_days : ℤ)
    (reference_date : Option PyDateTime) (year : ℕ) : List ℕ :=
  windowFilterIx store (sortedIx store readings)
    ((refDateIx store readings reference_date).days - window_days - year * 365)
    ((refDateIx store readings reference_date).days - year * 365)

/-- seasonal_engine.py lines 66-80 over the heap model. -/
def historicalChangesIx (store : Store) (readings : List ℕ) (window_days : ℤ)
    (reference_date : Option PyDateTime) (years : ℕ) : List ℚ :=
  (List.range years).filterMap (fun k =>
    if 2 ≤ (historicalWindowIx store readings window_days reference_date (k + 1)).length then
      some ((store ((historicalWindowIx store readings window_days reference_date
            (k + 1)).getLastD 0)).water_level_m.getD 0
        - (store ((historicalWindowIx store readings window_days reference_date
            (k + 1)).headD 0)).water_level_m.getD 0)
    else none)

/-- seasonal_engine.py line 63 over the heap model. -/
def actualChangeIx (store : Store) (readings : List ℕ) (window_days : ℤ)
    (reference_date : Option PyDateTime) : ℚ :=
  (store ((actualWindowIx store readings window_days reference_date).getLastD
      0)).water_level_m.getD 0
    - (store ((actualWindowIx store readings window_days reference_date).headD
      0)).water_level_m.getD 0

/-- seasonal_engine.py lines 86-99 over the heap model. -/
def seasonalResultIx (store : Store) (readings : List ℕ) (window_days : ℤ)
    (years : ℕ) (reference_date : Option PyDateTime) : SeasonalMetrics :=
  { actual_change := actualChangeIx store readings window_days reference_date
    historical_baseline :=
      (historicalChangesIx store readings window_days reference_date years).sum
        / (historicalChangesIx store readings window_days reference_date years).length
    deviation := actualChangeIx store readings window_days reference_date
      - (historicalChangesIx store readings window_days reference_date years).sum
        / (historicalChangesIx store readings window_days reference_date years).length
    season_label := SeasonalEngine.get_season_label (refDateIx store readings reference_date)
    years_used := (historicalChangesIx store readings window_days reference_date years).length }

/-- seasonal_engine.py SeasonalEngine.calculate_seasonal_deviation over the
heap model, returning the store and the caller's reference list as they stand
at return. -/
def calculate_seasonal_deviation_st (store : Store) (readings : List ℕ)
    (window_days : ℤ) (years : ℕ) (reference_date : Option PyDateTime) :
    Store × List ℕ × Option SeasonalMetrics :=
  match readings with
  | [] => (store, readings, none)
  | _ :: _ =>
    if (actualWindowIx store readings window_days reference_date).length < 2 then
      (store, readings, none)
    else if historicalChangesIx store readings window_days reference_date years = [] then
      (store, readings, none)
    else
      (store, readings,
        some (seasonalResultIx store readings window_days years reference_date))

end PyState

/-- Concrete reading constructor used by the concrete instances below. -/
def mkReading (d : ℤ) (m : ℕ) (v : ℚ) : Reading :=
  { station_id := "S1", timestamp := ⟨d, m⟩, water_level_m := some v }

/-- Concrete series: depth falling 0.1 m/day (Recharging). -/
def rsSign : List Reading := [mkReading 0 1 10, mkReading 10 1 9]

/-- The trend result of `rsSign` over a 90-day window. -/
def tmSign : TrendMetrics :=
  { status := TrendIndicator.RECHARGING, slope := -1/10,
    strength := TrendStrength.STRONG, magnitude := -9,
    window_days := 90, data_points_used := 2 }

/-- Concrete series: two identical depths. -/
def rsFlat : List Reading := [mkReading 0 1 10, mkReading 30 1 10]

/-- Concrete series: depth rising 1/30 m/day (Depleting). -/
def rsUp : List Reading := [mkReading 0 1 10, mkReading 30 1 11]

/-- The trend result of `rsUp` over a 90-day window. -/
def tmUp : TrendMetrics :=
  { status := TrendIndicator.DEPLETING, slope := 1/30,
    strength := TrendStrength.STRONG, magnitude := 3,
    window_days := 90, data_points_used := 2 }

/-- Concrete series with a single reading (insufficient for a trend). -/
def rsOne : List Reading := [mkReading 0 1 10]

/-- Concrete series: two equal depths 40 days apart (Stable). -/
def rsStable : List Reading := [mkReading 0 1 5, mkReading 40 1 5]

/-- The trend result of `rsStable` over a 90-day window. -/
def tmStable : TrendMetrics :=
  { status := TrendIndicator.STABLE, slope := 0,
    strength := TrendStrength.LOW, magnitude := 0,
    window_days := 90, data_points_used := 2 }

/-- Concrete series with two readings sharing one timestamp (day 1000) plus a
usable historical window one year earlier; input order among the duplicate
timestamps survives the stable sort and changes the seasonal result. -/
def rsDup : List Reading :=
  [mkReading 1000 6 1, mkReading 1000 6 2, mkReading 600 1 3, mkReading 620 1 4]

/-- Concrete series with pairwise distinct timestamps, a current window of 2
usable readings and a usable historical window one year earlier. -/
def rsDistinct : List Reading :=
  [mkReading 1000 6 1, mkReading 995 6 2, mkReading 600 1 3, mkReading 620 1 4]

/-- Concrete series for the seasonal engine anchored in month 3. -/
def rsMarch : List Reading :=
  [mkReading 600 1 3, mkReading 620 1 4, mkReading 995 3 1, mkReading 1000 3 2]

/-- The seasonal result of `rsMarch` at reference day 1000, month 3. -/
def smMarch : SeasonalMetrics :=
  { actual_change := 1, historical_baseline := 1, deviation := 0,
    season_label := "Summer / Pre-Monsoon", years_used := 1 }

/-- Concrete series whose current window has 2 usable readings but with no
usable historical window. -/
def rsNoHist : List Reading := [mkReading 995 6 1, mkReading 1000 6 2]

namespace TrendEngine

/-- Every successful trend calculation is the assembly `trendFromSlope` applied
to the fitted slope, the window, and the survivor count. -/
theorem calculate_trend_eq_some {readings : List Reading} {w : ℤ} {tm : TrendMetrics}
    (h : calculate_trend readings w = some tm) :
    tm = trendFromSlope (trendSlope readings w) w (filteredReadings readings w).length := by
  cases readings with
  | nil => simp [calculate_trend] at h
  | cons a l =>
    unfold calculate_trend at h
    by_cases hc : (filteredReadings (a :: l) w).length < 2
    · simp [hc] at h
    · simp only [hc, if_false, Option.some.injEq] at h
      exact h.symm

end TrendEngine

/-- C2: for every series on which TrendEngine's calculate_trend returns a trend
result, the status is determined solely by the sign of the fitted slope:
slope < 0 yields Recharging, slope > 0 yields Depleting, and slope == 0 yields
Stable. -/
theorem C2_status_determined_by_slope_sign (readings : List Reading) (w : ℤ)
    (tm : TrendMetrics) (h : TrendEngine.calculate_trend readings w = some tm) :
    (tm.slope < 0 → tm.status = TrendIndicator.RECHARGING)
    ∧ (0 < tm.slope → tm.status = TrendIndicator.DEPLETING)
    ∧ (tm.slope = 0 → tm.status = TrendIndicator.STABLE) := by
  have hrep := TrendEngine.calculate_trend_eq_some h
  subst hrep
  refine ⟨fun hs => ?_, fun hs => ?_, fun hs => ?_⟩
  · simp [TrendEngine.trendFromSlope] at hs ⊢
    simp [hs]
  · simp [TrendEngine.trendFromSlope] at hs ⊢
    simp [hs, not_lt.2 hs.le]
  · simp [TrendEngine.trendFromSlope] at hs ⊢
    simp [hs]

/-- C2 witness: a concrete series with negative fitted slope classified
Recharging. -/
theorem C2_witness :
    TrendEngine.calculate_trend rsSign 90 = some tmSign
    ∧ ((tmSign.slope < 0 → tmSign.status = TrendIndicator.RECHARGING)
      ∧ (0 < tmSign.slope → tmSign.status = TrendIndicator.DEPLETING)
      ∧ (tmSign.slope = 0 → tmSign.status = TrendIndicator.STABLE)) :=
  ⟨by with_unfolding_all decide, C2_status_determined_by_slope_sign rsSign 90 tmSign (by with_unfolding_all decide)⟩

/-- C4: for every trend result produced by calculate_trend, the magnitude field
equals slope multiplied by window_days, exactly. -/
theorem C4_magnitude_eq_slope_mul_window (readings : List Reading) (w : ℤ)
    (tm : TrendMetrics) (h : TrendEngine.calculate_trend readings w = some tm) :
    tm.magnitude = tm.slope * tm.window_days := by
  have hrep := TrendEngine.calculate_trend_eq_some h
  subst hrep
  rfl

/-- C4 witness: the defining equation evaluated on a concrete output. -/
theorem C4_witness :
    TrendEngine.calculate_trend rsUp 90 = some tmUp
    ∧ tmUp.magnitude = tmUp.slope * tmUp.window_days :=
  ⟨by with_unfolding_all decide, C4_magnitude_eq_slope_mul_window rsUp 90 tmUp (by with_unfolding_all decide)⟩

/-- C5: for every input series in which fewer than 2 readings fall inside the
trailing trend window with a non-null depth value (including the empty series),
calculate_trend returns the insufficient-data outcome (`none`, mapped to the
INSUFFICIENT_DATA indicator by the processing engine) as a normal value; the
embedding is total, so no exception is possible. -/
theorem C5_insufficient_data_is_none (readings : List Reading) (cfg : Config)
    (now : PyDateTime) (cd : Option PyDateTime)
    (h : (TrendEngine.filteredReadings readings cfg.trend_window_days).length < 2) :
    TrendEngine.calculate_trend readings cfg.trend_window_days = none
    ∧ (ProcessingEngine.calculate_metrics cfg now readings cd).trend_indicator
        = TrendIndicator.INSUFFICIENT_DATA := by
  have hnone : TrendEngine.calculate_trend readings cfg.trend_window_days = none := by
    cases readings with
    | nil => rfl
    | cons a l => simp [TrendEngine.calculate_trend, h]
  refine ⟨hnone, ?_⟩
  cases readings with
  | nil => rfl
  | cons a l => simp [ProcessingEngine.calculate_metrics, hnone]

/-- C5 witness: a single-reading series yields the insufficient-data outcome. -/
theorem C5_witness :
    (TrendEngine.filteredReadings rsOne 90).length < 2
    ∧ TrendEngine.calculate_trend rsOne 90 = none
    ∧ (ProcessingEngine.calculate_metrics {} ⟨0, 1⟩ rsOne none).trend_indicator
        = TrendIndicator.INSUFFICIENT_DATA :=
  ⟨by with_unfolding_all decide,
    (C5_insufficient_data_is_none rsOne {} ⟨0, 1⟩ none (by with_unfolding_all decide)).1,
    (C5_insufficient_data_is_none rsOne {} ⟨0, 1⟩ none (by with_unfolding_all decide)).2⟩

/-- C10: every result with status Stable has strength Low and magnitude exactly
0. -/
theorem C10_stable_implies_low_and_zero (readings : List Reading) (w : ℤ)
    (tm : TrendMetrics) (h : TrendEngine.calculate_trend readings w = some tm)
    (hst : tm.status = TrendIndicator.STABLE) :
    tm.strength = TrendStrength.LOW ∧ tm.magnitude = 0 := by
  have hrep := TrendEngine.calculate_trend_eq_some h
  subst hrep
  by_cases h1 : TrendEngine.trendSlope readings w < 0
  · simp [TrendEngine.trendFromSlope, h1] at hst
  · by_cases h2 : 0 < TrendEngine.trendSlope readings w
    · simp [TrendEngine.trendFromSlope, h1, h2] at hst
    · have hz : TrendEngine.trendSlope readings w = 0 :=
        le_antisymm (not_lt.1 h2) (not_lt.1 h1)
      constructor
      · simp [TrendEngine.trendFromSlope, hz, TrendEngine.LOW_STRENGTH_THRESHOLD]
      · simp [TrendEngine.trendFromSlope, hz]

/-- C10 witness: a concrete Stable output with Low strength and zero
magnitude. -/
theorem C10_witness :
    TrendEngine.calculate_trend rsStable 90 = some tmStable
    ∧ tmStable.status = TrendIndicator.STABLE
    ∧ (tmStable.strength = TrendStrength.LOW ∧ tmStable.magnitude = 0) :=
  ⟨by with_unfolding_all decide, by with_unfolding_all decide,
    C10_stable_implies_low_and_zero rsStable 90 tmStable (by with_unfolding_all decide) (by with_unfolding_all decide)⟩

namespace TrendEngine

/-- If all usable in-window water levels are numerically equal, the fitted
slope is exactly 0 (the all-equal branch fires, bypassing the regression). -/
theorem trendSlope_eq_zero_of_const {readings : List Reading} {w : ℤ}
    (heq : ∀ r ∈ filteredReadings readings w, ∀ r' ∈ filteredReadings readings w,
      r.water_level_m = r'.water_level_m) :
    trendSlope readings w = 0 := by
  unfold trendSlope
  rw [if_pos]
  rw [List.all_eq_true]
  intro y hy
  rw [decide_eq_true_eq]
  unfold yValues at hy ⊢
  rcases List.mem_map.1 hy with ⟨r, hr, rfl⟩
  cases hs : sortedFiltered readings w with
  | nil => rw [hs] at hr; exact absurd hr (List.not_mem_nil r)
  | cons c t =>
    have hc : c ∈ filteredReadings readings w := by
      have hcs : c ∈ sortedFiltered readings w := by
        rw [hs]; exact List.mem_cons_self c t
      simpa [sortedFiltered] using hcs
    have hrf : r ∈ filteredReadings readings w := by
      simpa [sortedFiltered] using hr
    simp [heq r hrf c hc]

end TrendEngine

/-- C3: for every series whose in-window usable readings (at least 2 of them)
all have numerically equal depth values, calculate_trend sets the slope to
exactly 0 (through the all-equal branch, not the regression) and returns a
result with status Stable. -/
theorem C3_identical_depths_stable (readings : List Reading) (w : ℤ)
    (h2 : 2 ≤ (TrendEngine.filteredReadings readings w).length)
    (heq : ∀ r ∈ TrendEngine.filteredReadings readings w,
      ∀ r' ∈ TrendEngine.filteredReadings readings w,
      r.water_level_m = r'.water_level_m) :
    TrendEngine.trendSlope readings w = 0
    ∧ ∃ tm, TrendEngine.calculate_trend readings w = some tm
        ∧ tm.slope = 0 ∧ tm.status = TrendIndicator.STABLE := by
  have hz := TrendEngine.trendSlope_eq_zero_of_const heq
  refine ⟨hz, TrendEngine.trendFromSlope 0 w (TrendEngine.filteredReadings readings w).length,
    ?_, rfl, ?_⟩
  · cases readings with
    | nil => simp [TrendEngine.filteredReadings] at h2
    | cons a l =>
      unfold TrendEngine.calculate_trend
      rw [if_neg (not_lt.2 h2), hz]
  · simp [TrendEngine.trendFromSlope]

/-- C3 witness: a concrete two-point identical-depth series. -/
theorem C3_witness :
    (2 ≤ (TrendEngine.filteredReadings rsFlat 90).length
      ∧ ∀ r ∈ TrendEngine.filteredReadings rsFlat 90,
          ∀ r' ∈ TrendEngine.filteredReadings rsFlat 90,
          r.water_level_m = r'.water_level_m)
    ∧ (TrendEngine.trendSlope rsFlat 90 = 0
      ∧ ∃ tm, TrendEngine.calculate_trend rsFlat 90 = some tm
          ∧ tm.slope = 0 ∧ tm.status = TrendIndicator.STABLE) :=
  ⟨⟨by with_unfolding_all decide, by with_unfolding_all decide⟩,
    C3_identical_depths_stable rsFlat 90 (by with_unfolding_all decide)
      (by with_unfolding_all decide)⟩

/-- C1 (amended): the numeric outputs of the processing engine (trend slope,
trend magnitude, seasonal deviation, seasonal baseline, risk index) are
identical across two runs with identical series, calculation date, and
configuration, whatever the wall-clock reads at either run. -/
theorem C1_numeric_outputs_deterministic (cfg : Config) (now1 now2 : PyDateTime)
    (readings : List Reading) (cd : Option PyDateTime) :
    ProcessingEngine.numericOutputs (ProcessingEngine.calculate_metrics cfg now1 readings cd)
      = ProcessingEngine.numericOutputs (ProcessingEngine.calculate_metrics cfg now2 readings cd) := by
  cases readings <;> rfl

/-- C1 counterexample: with an empty series and no caller-supplied calculation
date, two runs of calculate_metrics with identical inputs at different
wall-clock instants return different Metrics — the calculation_date field of
the empty-series fallback is sampled from the wall clock
(`datetime.now()` in `_create_empty_metrics`), so not every output value is
independent of wall-clock time. -/
theorem C1_wallclock_dependence :
    ProcessingEngine.calculate_metrics {} ⟨0, 1⟩ [] none
      ≠ ProcessingEngine.calculate_metrics {} ⟨1, 1⟩ [] none := by
  with_unfolding_all decide

namespace SeasonalEngine

/-- A list sorted in the non-strict key order whose keys are pairwise distinct
is sorted in the strict key order. -/
theorem sorted_strict_of_nodup_keys {l : List Reading} (hs : l.Sorted byTime)
    (hnd : (l.map (fun r => r.timestamp.days)).Nodup) :
    l.Sorted (fun a b : Reading => a.timestamp.days < b.timestamp.days) := by
  have hne : l.Pairwise (fun a b : Reading => a.timestamp.days ≠ b.timestamp.days) :=
    List.pairwise_map.mp hnd
  exact (hs.and hne).imp (fun h => lt_of_le_of_ne h.1 h.2)

/-- Stably sorting by timestamp is a function of the multiset of readings when
timestamps are pairwise distinct: permuted inputs sort to the same list. -/
theorem sortedByTime_eq_of_perm {l1 l2 : List Reading} (hperm : l1.Perm l2)
    (hnd : (l1.map (fun r => r.timestamp.days)).Nodup) :
    sortedByTime l1 = sortedByTime l2 := by
  haveI : IsTrans Reading byTime := ⟨fun _ _ _ hab hbc => le_trans hab hbc⟩
  haveI : IsTotal Reading byTime := ⟨fun a b => Int.le_total a.timestamp.days b.timestamp.days⟩
  haveI : IsAntisymm Reading (fun a b : Reading => a.timestamp.days < b.timestamp.days) :=
    ⟨fun _ _ h1 h2 => absurd (lt_trans h1 h2) (lt_irrefl _)⟩
  have hp : (sortedByTime l1).Perm (sortedByTime l2) :=
    (List.perm_insertionSort byTime l1).trans
      (hperm.trans (List.perm_insertionSort byTime l2).symm)
  have hnd1 : ((sortedByTime l1).map (fun r => r.timestamp.days)).Nodup :=
    (((List.perm_insertionSort byTime l1).map (fun r => r.timestamp.days)).nodup_iff).mpr hnd
  have hnd2 : ((sortedByTime l2).map (fun r => r.timestamp.days)).Nodup :=
    ((hp.map (fun r => r.timestamp.days)).nodup_iff).mp hnd1
  exact List.eq_of_perm_of_sorted hp
    (sorted_strict_of_nodup_keys (List.sorted_insertionSort byTime l1) hnd1)
    (sorted_strict_of_nodup_keys (List.sorted_insertionSort byTime l2) hnd2)

/-- Every intermediate of the seasonal computation factors through the sorted
series, so two nonempty series with equal sorted forms yield equal results. -/
theorem calculate_seasonal_deviation_congr {l1 l2 : List Reading}
    (h1 : l1 ≠ []) (h2 : l2 ≠ []) (hs : sortedByTime l1 = sortedByTime l2)
    (w : ℤ) (years : ℕ) (ref : Option PyDateTime) :
    calculate_seasonal_deviation l1 w years ref
      = calculate_seasonal_deviation l2 w years ref := by
  have href : ∀ rd, refDate l1 rd = refDate l2 rd := fun rd => by
    unfold refDate; rw [hs]
  have haw : actualWindow l1 w ref = actualWindow l2 w ref := by
    unfold actualWindow; rw [hs, href]
  have hhw : ∀ y, historicalWindow l1 w ref y = historicalWindow l2 w ref y := fun y => by
    unfold historicalWindow; rw [hs, href]
  have hhc : historicalChanges l1 w ref years = historicalChanges l2 w ref years := by
    unfold historicalChanges
    simp only [hhw]
  have hac : actualChange l1 w ref = actualChange l2 w ref := by
    unfold actualChange; rw [haw]
  have hres : seasonalResult l1 w years ref = seasonalResult l2 w years ref := by
    unfold seasonalResult; rw [hhc, hac, href]
  obtain ⟨a, t, rfl⟩ := List.exists_cons_of_ne_nil h1
  obtain ⟨b, u, rfl⟩ := List.exists_cons_of_ne_nil h2
  show (if (actualWindow (a :: t) w ref).length < 2 then none
      else if historicalChanges (a :: t) w ref years = [] then none
      else some (seasonalResult (a :: t) w years ref))
    = (if (actualWindow (b :: u) w ref).length < 2 then none
      else if historicalChanges (b :: u) w ref years = [] then none
      else some (seasonalResult (b :: u) w years ref))
  rw [haw, hhc, hres]

/-- The season label of every successful result is get_season_label applied to
the anchor (reference) date. -/
theorem seasonal_label_eq {readings : List Reading} {w : ℤ} {years : ℕ}
    {ref : Option PyDateTime} {sm : SeasonalMetrics}
    (h : calculate_seasonal_deviation readings w years ref = some sm) :
    sm.season_label = get_season_label (refDate readings ref) := by
  cases readings with
  | nil => simp [calculate_seasonal_deviation] at h
  | cons a t =>
    unfold calculate_seasonal_deviation at h
    by_cases hc : (actualWindow (a :: t) w ref).length < 2
    · simp [hc] at h
    · rw [if_neg hc] at h
      by_cases hc2 : historicalChanges (a :: t) w ref years = []
      · simp [hc2] at h
      · rw [if_neg hc2] at h
        have hsm := Option.some.inj h
        subst hsm
        rfl

end SeasonalEngine

/-- C6 (amended): the seasonal engine is order-insensitive for every series
whose readings have pairwise distinct timestamps: every permutation of such a
series (in particular reverse chronological order) yields an identical
result.  (With duplicated timestamps the stable sort preserves the input order
among ties, so a permutation can change the result; the repository's data
model declares timestamps unique per series.) -/
theorem C6_order_invariant_distinct_timestamps (l1 l2 : List Reading)
    (hperm : l1.Perm l2)
    (hnd : (l1.map (fun r => r.timestamp.days)).Nodup)
    (w : ℤ) (years : ℕ) (ref : Option PyDateTime) :
    SeasonalEngine.calculate_seasonal_deviation l1 w years ref
      = SeasonalEngine.calculate_seasonal_deviation l2 w years ref := by
  cases l1 with
  | nil =>
    have h2 : l2 = [] := hperm.symm.eq_nil
    subst h2; rfl
  | cons a t =>
    cases l2 with
    | nil => exact absurd hperm.eq_nil (List.cons_ne_nil a t)
    | cons b u =>
      exact SeasonalEngine.calculate_seasonal_deviation_congr
        (List.cons_ne_nil a t) (List.cons_ne_nil b u)
        (SeasonalEngine.sortedByTime_eq_of_perm hperm hnd) w years ref

/-- C6 counterexample: a series with a duplicated timestamp (two readings on
day 1000 with different levels) for which reversing the input order changes
the SeasonalResult, because the stable sort preserves the input order of the
tied readings.  This falsifies order-invariance for arbitrary series. -/
theorem C6_reverse_changes_result :
    SeasonalEngine.calculate_seasonal_deviation rsDup.reverse 90 3 (some ⟨1000, 6⟩)
      ≠ SeasonalEngine.calculate_seasonal_deviation rsDup 90 3 (some ⟨1000, 6⟩) := by
  with_unfolding_all decide

/-- C6 witness: a concrete distinct-timestamp series and its reversal yield
identical results. -/
theorem C6_witness :
    (rsDistinct.Perm rsDistinct.reverse
      ∧ (rsDistinct.map (fun r => r.timestamp.days)).Nodup)
    ∧ SeasonalEngine.calculate_seasonal_deviation rsDistinct 90 3 (some ⟨1000, 6⟩)
        = SeasonalEngine.calculate_seasonal_deviation rsDistinct.reverse 90 3 (some ⟨1000, 6⟩) :=
  ⟨⟨(List.reverse_perm rsDistinct).symm, by with_unfolding_all decide⟩,
    C6_order_invariant_distinct_timestamps rsDistinct rsDistinct.reverse
      (List.reverse_perm rsDistinct).symm (by with_unfolding_all decide) 90 3 (some ⟨1000, 6⟩)⟩

/-- C7: when the current window holds at least 2 usable points but no
year-shifted historical window (k = 1..years) holds at least 2 usable points,
calculate_seasonal_deviation returns `none`. -/
theorem C7_no_historical_years_none (readings : List Reading) (w : ℤ) (years : ℕ)
    (ref : Option PyDateTime)
    (hcur : 2 ≤ (SeasonalEngine.actualWindow readings w ref).length)
    (hhist : ∀ k ∈ List.range years,
      (SeasonalEngine.historicalWindow readings w ref (k + 1)).length < 2) :
    SeasonalEngine.calculate_seasonal_deviation readings w years ref = none := by
  have hempty : SeasonalEngine.historicalChanges readings w ref years = [] := by
    unfold SeasonalEngine.historicalChanges
    refine List.filterMap_eq_nil_iff.mpr (fun k hk => ?_)
    rw [if_neg (not_le.2 (hhist k hk))]
  cases readings with
  | nil => rfl
  | cons a t =>
    unfold SeasonalEngine.calculate_seasonal_deviation
    rw [if_neg (not_lt.2 hcur), if_pos hempty]

/-- C7 witness: a concrete two-point current window with no historical data. -/
theorem C7_witness :
    (2 ≤ (SeasonalEngine.actualWindow rsNoHist 90 (some ⟨1000, 6⟩)).length
      ∧ ∀ k ∈ List.range 3,
          (SeasonalEngine.historicalWindow rsNoHist 90 (some ⟨1000, 6⟩) (k + 1)).length < 2)
    ∧ SeasonalEngine.calculate_seasonal_deviation rsNoHist 90 3 (some ⟨1000, 6⟩) = none :=
  ⟨⟨by with_unfolding_all decide, by with_unfolding_all decide⟩,
    C7_no_historical_years_none rsNoHist 90 3 (some ⟨1000, 6⟩)
      (by with_unfolding_all decide) (by with_unfolding_all decide)⟩

/-- C8 (amended): the season label of every SeasonalResult is a pure function
of the reference date's calendar month, with months 3, 4, 5 mapping to
"Summer / Pre-Monsoon" (with spaces around the slash, unlike the claim's
"Summer/Pre-Monsoon"), months 6, 7, 8, 9 to "Monsoon", months 10, 11 to
"Post-Monsoon", and months 12, 1, 2 to "Winter". -/
theorem C8_season_label_of_month (readings : List Reading) (w : ℤ) (years : ℕ)
    (ref : Option PyDateTime) (sm : SeasonalMetrics)
    (h : SeasonalEngine.calculate_seasonal_deviation readings w years ref = some sm) :
    sm.season_label
      = SeasonalEngine.seasonLabelOfMonth (SeasonalEngine.refDate readings ref).month
    ∧ (∀ m : ℕ, m = 3 ∨ m = 4 ∨ m = 5 →
        SeasonalEngine.seasonLabelOfMonth m = "Summer / Pre-Monsoon")
    ∧ (∀ m : ℕ, m = 6 ∨ m = 7 ∨ m = 8 ∨ m = 9 →
        SeasonalEngine.seasonLabelOfMonth m = "Monsoon")
    ∧ (∀ m : ℕ, m = 10 ∨ m = 11 →
        SeasonalEngine.seasonLabelOfMonth m = "Post-Monsoon")
    ∧ (∀ m : ℕ, m = 12 ∨ m = 1 ∨ m = 2 →
        SeasonalEngine.seasonLabelOfMonth m = "Winter") := by
  refine ⟨SeasonalEngine.seasonal_label_eq h, ?_, ?_, ?_, ?_⟩
  · rintro m (rfl | rfl | rfl) <;> rfl
  · rintro m (rfl | rfl | rfl | rfl) <;> rfl
  · rintro m (rfl | rfl) <;> rfl
  · rintro m (rfl | rfl | rfl) <;> rfl

/-- C8 counterexample: a concrete March-anchored run returns the label
"Summer / Pre-Monsoon", which differs from the claimed string
"Summer/Pre-Monsoon". -/
theorem C8_label_string_differs :
    (SeasonalEngine.calculate_seasonal_deviation rsMarch 90 3 (some ⟨1000, 3⟩)).map
        SeasonalMetrics.season_label = some "Summer / Pre-Monsoon"
    ∧ "Summer / Pre-Monsoon" ≠ "Summer/Pre-Monsoon" := by
  constructor
  · with_unfolding_all decide
  · with_unfolding_all decide

/-- C8 witness: the amended claim evaluated on the concrete March-anchored
run. -/
theorem C8_witness :
    SeasonalEngine.calculate_seasonal_deviation rsMarch 90 3 (some ⟨1000, 3⟩) = some smMarch
    ∧ smMarch.season_label
        = SeasonalEngine.seasonLabelOfMonth
            (SeasonalEngine.refDate rsMarch (some ⟨1000, 3⟩)).month :=
  ⟨by with_unfolding_all decide,
    (C8_season_label_of_month rsMarch 90 3 (some ⟨1000, 3⟩) smMarch
      (by with_unfolding_all decide)).1⟩

namespace PyState

/-- Mapping dereference over a filter on references equals filtering the
dereferenced list. -/
theorem map_filter_deref {α β : Type} (f : α → β) (p : β → Bool) (l : List α) :
    (l.filter (fun i => p (f i))).map f = (l.map f).filter p := by
  induction l with
  | nil => rfl
  | cons a t ih => by_cases h : p (f a) <;> simp [List.filter_cons, h, ih]

/-- Dereferencing the head of a nonempty mapped list. -/
theorem headD_map {α β : Type} (f : α → β) {l : List α} (h : l ≠ []) (d : β) (d0 : α) :
    (l.map f).headD d = f (l.headD d0) := by
  cases l with
  | nil => exact absurd rfl h
  | cons a t => rfl

/-- Dereferencing the last element of a nonempty mapped list. -/
theorem getLastD_map {α β : Type} (f : α → β) {l : List α} (h : l ≠ []) (d : β) (d0 : α) :
    (l.map f).getLastD d = f (l.getLastD d0) := by
  rw [List.getLastD_eq_getLast?, List.getLastD_eq_getLast?, List.getLast?_map]
  obtain ⟨x, hx⟩ := Option.isSome_iff_exists.mp (List.getLast?_isSome.mpr h)
  rw [hx]
  rfl

/-- The maximum timestamp computed through references agrees with the pure
computation on the dereferenced list. -/
theorem maxTimestampDaysIx_eq (store : Store) (l : List ℕ) :
    maxTimestampDaysIx store l = TrendEngine.maxTimestampDays (l.map store) := by
  cases l with
  | nil => rfl
  | cons i t =>
    simp [maxTimestampDaysIx, TrendEngine.maxTimestampDays, List.foldl_map]

/-- The window filter through references agrees with the pure filter. -/
theorem filteredIx_eq (store : Store) (l : List ℕ) (w : ℤ) :
    (filteredIx store l w).map store = TrendEngine.filteredReadings (l.map store) w := by
  unfold filteredIx TrendEngine.filteredReadings
  rw [maxTimestampDaysIx_eq]
  exact map_filter_deref store
    (fun r => decide (TrendEngine.maxTimestampDays (l.map store) - w ≤ r.timestamp.days)
      && r.water_level_m.isSome) l

/-- The stable sort of references agrees with the stable sort of the
dereferenced list. -/
theorem insertionSort_map_deref (store : Store) (l : List ℕ) :
    (List.insertionSort (byTimeIx store) l).map store
      = List.insertionSort byTime (l.map store) :=
  List.map_insertionSort (byTimeIx store) byTime store l (fun _ _ _ _ => Iff.rfl)

/-- `sortedFilteredIx` dereferences to `sortedFiltered`. -/
theorem sortedFilteredIx_eq (store : Store) (l : List ℕ) (w : ℤ) :
    (sortedFilteredIx store l w).map store = TrendEngine.sortedFiltered (l.map store) w := by
  unfold sortedFilteredIx TrendEngine.sortedFiltered
  rw [insertionSort_map_deref, filteredIx_eq]

/-- `firstTsIx` agrees with `firstTs`. -/
theorem firstTsIx_eq (store : Store) (l : List ℕ) (w : ℤ) :
    firstTsIx store l w = TrendEngine.firstTs (l.map store) w := by
  unfold firstTsIx TrendEngine.firstTs
  rw [← sortedFilteredIx_eq]
  cases sortedFilteredIx store l w <;> rfl

/-- `xValuesIx` agrees with `xValues`. -/
theorem xValuesIx_eq (store : Store) (l : List ℕ) (w : ℤ) :
    xValuesIx store l w = TrendEngine.xValues (l.map store) w := by
  unfold xValuesIx TrendEngine.xValues
  rw [← sortedFilteredIx_eq, ← firstTsIx_eq, List.map_map]
  rfl

/-- `yValuesIx` agrees with `yValues`. -/
theorem yValuesIx_eq (store : Store) (l : List ℕ) (w : ℤ) :
    yValuesIx store l w = TrendEngine.yValues (l.map store) w := by
  unfold yValuesIx TrendEngine.yValues
  rw [← sortedFilteredIx_eq, List.map_map]
  rfl

/-- `trendSlopeIx` agrees with `trendSlope`. -/
theorem trendSlopeIx_eq (store : Store) (l : List ℕ) (w : ℤ) :
    trendSlopeIx store l w = TrendEngine.trendSlope (l.map store) w := by
  unfold trendSlopeIx TrendEngine.trendSlope
  rw [xValuesIx_eq, yValuesIx_eq]

/-- The heap-model trend engine returns the caller's state untouched together
with the pure result on the dereferenced list. -/
theorem calculate_trend_st_eq (store : Store) (l : List ℕ) (w : ℤ) :
    calculate_trend_st store l w
      = (store, l, TrendEngine.calculate_trend (l.map store) w) := by
  cases l with
  | nil => rfl
  | cons i t =>
    show (if (filteredIx store (i :: t) w).length < 2 then (store, i :: t, none)
        else (store, i :: t,
          some (TrendEngine.trendFromSlope (trendSlopeIx store (i :: t) w) w
            (filteredIx store (i :: t) w).length)))
      = (store, i :: t,
        if (TrendEngine.filteredReadings ((i :: t).map store) w).length < 2 then none
        else some (TrendEngine.trendFromSlope (TrendEngine.trendSlope ((i :: t).map store) w)
          w (TrendEngine.filteredReadings ((i :: t).map store) w).length))
    rw [← filteredIx_eq, List.length_map, ← trendSlopeIx_eq]
    by_cases hc : (filteredIx store (i :: t) w).length < 2
    · rw [if_pos hc, if_pos hc]
    · rw [if_neg hc, if_neg hc]

end PyState

namespace PyState

/-- `sortedIx` dereferences to `sortedByTime`. -/
theorem sortedIx_map (store : Store) (l : List ℕ) :
    (sortedIx store l).map store = SeasonalEngine.sortedByTime (l.map store) :=
  insertionSort_map_deref store l

/-- Sorting a nonempty reference list yields a nonempty list. -/
theorem sortedIx_ne_nil (store : Store) (i : ℕ) (t : List ℕ) :
    sortedIx store (i :: t) ≠ [] := by
  intro h
  unfold sortedIx at h
  have hlen := congrArg List.length h
  rw [List.length_insertionSort] at hlen
  simp at hlen

/-- `refDateIx` agrees with `refDate` on nonempty series. -/
theorem refDateIx_eq (store : Store) {l : List ℕ} (h : l ≠ []) (ref : Option PyDateTime) :
    SeasonalEngine.refDate (l.map store) ref = refDateIx store l ref := by
  obtain ⟨i, t, rfl⟩ := List.exists_cons_of_ne_nil h
  unfold SeasonalEngine.refDate refDateIx
  rw [← sortedIx_map, getLastD_map store (sortedIx_ne_nil store i t) default 0]

/-- `windowFilterIx` dereferences to `windowFilter`. -/
theorem windowFilterIx_map (store : Store) (s : List ℕ) (lo hi : ℤ) :
    (windowFilterIx store s lo hi).map store
      = SeasonalEngine.windowFilter (s.map store) lo hi := by
  unfold windowFilterIx SeasonalEngine.windowFilter
  exact map_filter_deref store
    (fun r => decide (lo ≤ r.timestamp.days ∧ r.timestamp.days ≤ hi)
      && r.water_level_m.isSome) s

/-- `actualWindowIx` dereferences to `actualWindow` on nonempty series. -/
theorem actualWindowIx_map (store : Store) {l : List ℕ} (h : l ≠ []) (w : ℤ)
    (ref : Option PyDateTime) :
    (actualWindowIx store l w ref).map store
      = SeasonalEngine.actualWindow (l.map store) w ref := by
  unfold actualWindowIx SeasonalEngine.actualWindow
  rw [refDateIx_eq store h ref, windowFilterIx_map, sortedIx_map]

/-- `historicalWindowIx` dereferences to `historicalWindow` on nonempty
series. -/
theorem historicalWindowIx_map (store : Store) {l : List ℕ} (h : l ≠ []) (w : ℤ)
    (ref : Option PyDateTime) (year : ℕ) :
    (historicalWindowIx store l w ref year).map store
      = SeasonalEngine.historicalWindow (l.map store) w ref year := by
  unfold historicalWindowIx SeasonalEngine.historicalWindow
  rw [refDateIx_eq store h ref, windowFilterIx_map, sortedIx_map]

/-- `historicalChangesIx` agrees with `historicalChanges` on nonempty series. -/
theorem historicalChangesIx_eq (store : Store) {l : List ℕ} (h : l ≠ []) (w : ℤ)
    (ref : Option PyDateTime) (years : ℕ) :
    historicalChangesIx store l w ref years
      = SeasonalEngine.historicalChanges (l.map store) w ref years := by
  unfold historicalChangesIx SeasonalEngine.historicalChanges
  congr 1
  funext k
  rw [← historicalWindowIx_map store h w ref (k + 1), List.length_map]
  by_cases hk : 2 ≤ (historicalWindowIx store l w ref (k + 1)).length
  · have hne : historicalWindowIx store l w ref (k + 1) ≠ [] := by
      intro hnil
      rw [hnil] at hk
      simp at hk
    rw [if_pos hk, if_pos hk, getLastD_map store hne default 0, headD_map store hne default 0]
  · rw [if_neg hk, if_neg hk]

/-- `actualChangeIx` agrees with `actualChange` when the current window has at
least 2 usable readings. -/
theorem actualChangeIx_eq (store : Store) {l : List ℕ} (h : l ≠ []) (w : ℤ)
    (ref : Option PyDateTime) (hlen : 2 ≤ (actualWindowIx store l w ref).length) :
    actualChangeIx store l w ref = SeasonalEngine.actualChange (l.map store) w ref := by
  have hne : actualWindowIx store l w ref ≠ [] := by
    intro hnil
    rw [hnil] at hlen
    simp at hlen
  unfold actualChangeIx SeasonalEngine.actualChange
  rw [← actualWindowIx_map store h w ref, getLastD_map store hne default 0,
    headD_map store hne default 0]

/-- `seasonalResultIx` agrees with `seasonalResult` when the current window has
at least 2 usable readings. -/
theorem seasonalResultIx_eq (store : Store) {l : List ℕ} (h : l ≠ []) (w : ℤ)
    (years : ℕ) (ref : Option PyDateTime)
    (hlen : 2 ≤ (actualWindowIx store l w ref).length) :
    seasonalResultIx store l w years ref
      = SeasonalEngine.seasonalResult (l.map store) w years ref := by
  unfold seasonalResultIx SeasonalEngine.seasonalResult
  rw [historicalChangesIx_eq store h, actualChangeIx_eq store h w ref hlen,
    ← refDateIx_eq store h ref]

/-- The heap-model seasonal engine returns the caller's state untouched
together with the pure result on the dereferenced list. -/
theorem calculate_seasonal_deviation_st_eq (store : Store) (l : List ℕ) (w : ℤ)
    (years : ℕ) (ref : Option PyDateTime) :
    calculate_seasonal_deviation_st store l w years ref
      = (store, l, SeasonalEngine.calculate_seasonal_deviation (l.map store) w years ref) := by
  cases l with
  | nil => rfl
  | cons i t =>
    have hne : (i :: t) ≠ ([] : List ℕ) := List.cons_ne_nil i t
    show (if (actualWindowIx store (i :: t) w ref).length < 2 then (store, i :: t, none)
        else if historicalChangesIx store (i :: t) w ref years = [] then (store, i :: t, none)
        else (store, i :: t, some (seasonalResultIx store (i :: t) w years ref)))
      = (store, i :: t,
        if (SeasonalEngine.actualWindow ((i :: t).map store) w ref).length < 2 then none
        else if SeasonalEngine.historicalChanges ((i :: t).map store) w ref years = [] then none
        else some (SeasonalEngine.seasonalResult ((i :: t).map store) w years ref))
    rw [← actualWindowIx_map store hne w ref, List.length_map,
      ← historicalChangesIx_eq store hne w ref years]
    by_cases h1 : (actualWindowIx store (i :: t) w ref).length < 2
    · rw [if_pos h1, if_pos h1]
    · rw [if_neg h1, if_neg h1]
      by_cases h2 : historicalChangesIx store (i :: t) w ref years = []
      · rw [if_pos h2, if_pos h2]
      · rw [if_neg h2, if_neg h2, seasonalResultIx_eq store hne w years ref (not_lt.1 h1)]

end PyState

/-- C9: over the heap model (a store of Reading objects and the caller's list
of references), both engine calls return the store and the caller's list
exactly as passed — no field of any Reading is modified and the list keeps its
elements and order — while producing the same result as the pure functions on
the dereferenced series; the only in-place sort acts on the fresh filtered
list. -/
theorem C9_engines_do_not_mutate_inputs (store : PyState.Store) (readings : List ℕ)
    (w : ℤ) (years : ℕ) (ref : Option PyDateTime) :
    PyState.calculate_trend_st store readings w
        = (store, readings, TrendEngine.calculate_trend (readings.map store) w)
    ∧ PyState.calculate_seasonal_deviation_st store readings w years ref
        = (store, readings,
          SeasonalEngine.calculate_seasonal_deviation (readings.map store) w years ref) :=
  ⟨PyState.calculate_trend_st_eq store readings w,
    PyState.calculate_seasonal_deviation_st_eq store readings w years ref⟩
